import Mathlib

/-!
Verification development for the Taro-JpTranslation region-translation
pipeline (Python sources: `config.py`, `translator/qwen_translator.py`,
`translator/baidu_translator.py`, `translator/ocr_engine.py`,
`translator/translate_service_server.py`).

The Python code is shallowly embedded: pure string manipulation is
translated to executable Lean functions over `String` (backed by
`List Char`, matching Python's code-point view of `str`), floats that
only ever carry OCR confidences and pixel coordinates are modelled as
`ℚ`, and every external effect (Ollama chat call, Baidu HTTP call, OCR
engine invocation, environment variables, config file) is passed in as
explicit data so that each function of the source becomes a total
function of its inputs plus the outcome of its external calls.
-/

/-! ## Python string primitives

Python `str` operations used by the sources, re-implemented over
`List Char` with structural (fuel-based) recursion so that every
definition evaluates inside the kernel.  `str.strip` is modelled with
`Char.isWhitespace` (the sources only ever strip ASCII whitespace in
the situations the claims exercise), `len` is the number of code
points, and `str.split` is leftmost non-overlapping splitting.
-/

/-- Python truthiness of a string: `bool(s)` is `True` iff `s` is nonempty. -/
def pyTruthy (s : String) : Bool := s != ""

/-- Characters removed by Python `str.strip()` (modelled as ASCII whitespace). -/
def pyStripChars (l : List Char) : List Char :=
  ((l.dropWhile Char.isWhitespace).reverse.dropWhile Char.isWhitespace).reverse

/-- Python `s.strip()`. -/
def pyStrip (s : String) : String := ⟨pyStripChars s.data⟩

/-- Python `len(s)`: number of code points. -/
def pyLen (s : String) : Nat := s.data.length

/-- Python `s[0]` on a string known to be nonempty (default is irrelevant). -/
def pyFirst (s : String) : Char := s.data.headD ' '

/-- Does `sep` occur at the head of `l`? -/
def leadsWith : List Char → List Char → Bool
  | [], _ => true
  | _ :: _, [] => false
  | a :: as, b :: bs => a == b && leadsWith as bs

/-- Fuel-driven worker for Python `str.split(sep)` (leftmost,
non-overlapping).  The fuel is an upper bound on the number of
characters still to be consumed; each step consumes at least one. -/
def splitGo (sep : List Char) : Nat → List Char → List (List Char)
  | _, [] => [[]]
  | 0, l => [l]
  | fuel + 1, c :: rest =>
    if leadsWith sep (c :: rest) then
      [] :: splitGo sep fuel (List.drop (sep.length - 1) rest)
    else
      match splitGo sep fuel rest with
      | [] => [[c]]
      | h :: t => (c :: h) :: t

/-- Python `s.split(sep)` for a nonempty separator (Python raises on an
empty separator; the sources never pass one). -/
def pySplit (s sep : String) : List String :=
  if sep.data.isEmpty then [s]
  else (splitGo sep.data s.data.length s.data).map (fun l => ⟨l⟩)

/-- Python `sub in s` for a nonempty `sub`: `split` produced at least
one cut point. -/
def pyContains (s sub : String) : Bool := (pySplit s sub).length > 1

/-- Python `s.split(sep, 1)` as a (before, after) pair; when `sep` does
not occur the second component is unused by the sources. -/
def pySplitOnce (s sep : String) : String × String :=
  match pySplit s sep with
  | [] => (s, "")
  | [x] => (x, "")
  | x :: rest => (x, String.intercalate sep rest)

/-! ## `translator/qwen_translator.py` — `QwenTranslator`

`self.available` (computed once by `_check_ollama`) and the outcome of
`_call_ollama` (the stripped chat response, or `None` when the call
raised) are explicit parameters; the prompt text sent to the dependency
does not influence any claim and is absorbed into that outcome.
-/

/-- Embedding of `QwenTranslator._clean_translation` (qwen_translator.py lines 78-89):
if the text contains `...` and the segment `parts[1]` directly after the
first `...` is longer than 5 characters, keep only `parts[0]`; the
result is always stripped. -/
def clean_translation (text : String) : String :=
  if pyContains text "..." then
    let parts := pySplit text "..."
    if parts.length > 1 ∧ pyLen (parts.getD 1 "") > 5 then pyStrip (parts.getD 0 "")
    else pyStrip text
  else pyStrip text

/-- Embedding of `QwenTranslator.translate` (qwen_translator.py lines 91-128).
`available` is `self.available`; `callResult` is what `_call_ollama`
returned for the constructed prompt. -/
def qwen_translate (available : Bool) (callResult : Option String) (text : String) : String :=
  if available = false then "Qwen翻译器不可用"
  else if text = "" ∨ pyStrip text = "" then ""
  else
    match callResult with
    | none => "翻译失败: " ++ text
    | some r =>
      let cleaned := if r ≠ "" then clean_translation r else r
      if cleaned ≠ "" then cleaned else "翻译失败: " ++ text

/-- The loop body of `QwenTranslator._parse_batch_result`
(qwen_translator.py lines 195-209): strip each line, skip blank lines,
strip a leading `"<digit>... . "` numbering prefix when present, and
clean each parsed translation. -/
def parse_lines (lines : List String) : List String :=
  lines.foldl
    (fun translations rawLine =>
      let line := pyStrip rawLine
      if line = "" then translations
      else if (pyFirst line).isDigit && pyContains line ". " then
        translations ++ [clean_translation (pyStrip (pySplitOnce line ". ").2)]
      else
        translations ++ [clean_translation line])
    []

/-- Embedding of `QwenTranslator._parse_batch_result` (qwen_translator.py lines
190-215): parse the numbered lines, pad with the literal
`"翻译结果不完整"` up to `expected_count`, then truncate to
`expected_count`. -/
def parse_batch_result (result : String) (expected_count : Nat) : List String :=
  let translations := parse_lines (pySplit (pyStrip result) "\n")
  let padded :=
    if translations.length < expected_count then
      translations ++ List.replicate (expected_count - translations.length) "翻译结果不完整"
    else translations
  padded.take expected_count

/-- The list comprehension `[(i, t) for i, t in enumerate(texts) if t and t.strip()]`
of `QwenTranslator.translate_batch` (qwen_translator.py line 148). -/
def nonEmptyEnum (texts : List String) : List (Nat × String) :=
  texts.enum.filter (fun p => pyTruthy p.2 && pyTruthy (pyStrip p.2))

/-- The write-back loop of `QwenTranslator.translate_batch`
(qwen_translator.py lines 184-186): start from `[""] * n` and assign
each translation at its original index. -/
def scatter_back (n : Nat) (pairs : List ((Nat × String) × String)) : List String :=
  pairs.foldl (fun final_results p => final_results.set p.1.1 p.2) (List.replicate n "")

/-- Python truthiness of an `_call_ollama` result (`if not result:`):
`None` and the empty string are both falsy. -/
def pyTruthyResult (r : Option String) : Bool :=
  match r with
  | none => false
  | some s => s != ""

/-- Embedding of `QwenTranslator.translate_batch` (qwen_translator.py lines 130-188).
`available` is `self.available`; `callResult` is what `_call_ollama`
returned for the batch prompt (`none` when the call raised); as in the
source's `if not result:`, an empty-string response is treated like a
failed call. -/
def translate_batch (available : Bool) (callResult : Option String) (texts : List String) :
    List String :=
  if available = false then List.replicate texts.length "Qwen翻译器不可用"
  else if texts.isEmpty then []
  else
    let non_empty_texts := nonEmptyEnum texts
    if non_empty_texts.isEmpty then List.replicate texts.length ""
    else if pyTruthyResult callResult = false then
      non_empty_texts.map (fun p => "翻译失败: " ++ p.2)
    else
      let translations := parse_batch_result (callResult.getD "") non_empty_texts.length
      scatter_back texts.length (non_empty_texts.zip translations)

/-! ## `translator/baidu_translator.py` — `BaiduTranslator`

The HTTP exchange (`requests.get` + `response.json()`) is abstracted
into a `BaiduOutcome` describing which of the source's four response
branches the call took; the claims never depend on the request wire
format (salt, md5 signature), only on the in-band result strings.
-/

/-- The possible outcomes of the `requests.get` call and JSON decoding
in `BaiduTranslator.translate` (baidu_translator.py lines 51-65). -/
inductive BaiduOutcome where
  | transResult (dsts : List String)
  | errorCode (code : String)
  | other
  | exn (msg : String)
deriving DecidableEq

/-- Embedding of `BaiduTranslator._get_error_message` (baidu_translator.py lines 67-80). -/
def get_error_message (error_code : String) : String :=
  if error_code = "52001" then "TIMEOUT - 请求超时"
  else if error_code = "52002" then "SYSTEM ERROR - 系统错误"
  else if error_code = "52003" then "UNAUTHORIZED USER - 未授权用户"
  else if error_code = "54000" then "REQUIRED PARAMETER IS NULL - 必填参数为空"
  else if error_code = "54001" then "INVALID SIGN - 签名错误"
  else if error_code = "54003" then "ACCESS FREQUENCY LIMITED - 访问频率受限"
  else if error_code = "54004" then "INSUFFICIENT ACCOUNT BALANCE - 账户余额不足"
  else if error_code = "54005" then "LONG QUERY TOO FREQUENTLY - 长查询请求过于频繁"
  else if error_code = "58000" then "CLIENT_IP_ILLEGAL - 客户端IP非法"
  else "未知错误码: " ++ error_code

/-- Embedding of `BaiduTranslator.translate` (baidu_translator.py lines 18-65).
`appid`/`secret_key` are the constructor arguments; `outcome` is the
result of the HTTP call for this text. -/
def baidu_translate (appid secret_key : String) (outcome : BaiduOutcome) (text : String) :
    String :=
  if appid = "" ∨ secret_key = "" then "请先配置百度翻译API密钥"
  else if text = "" ∨ pyStrip text = "" then ""
  else
    match outcome with
    | .transResult dsts => String.intercalate "\n" dsts
    | .errorCode code => "翻译错误: " ++ get_error_message code
    | .other => "翻译失败"
    | .exn msg => "翻译异常: " ++ msg

/-! ## `config.py` — `Config`

The process environment and the optional `config.json` file are
explicit inputs.  A `none` environment variable models an unset
variable (`os.getenv` then yields the `''` default); `parsed = none`
models a present but unreadable/invalid file (the `except` branch keeps
the defaults). -/

/-- The two environment variables read by `Config.load_config`. -/
structure EnvVars where
  BAIDU_APPID : Option String
  BAIDU_SECRET_KEY : Option String
deriving DecidableEq

/-- The keys of `config.json` that `Config.load_config` inspects; a
`none` field models an absent key. -/
structure FileContent where
  baidu_appid : Option String
  baidu_secret_key : Option String
  ocr_language : Option String
deriving DecidableEq

/-- The on-disk state of `config.json`: absent, present-but-invalid, or
present with the given keys. -/
structure ConfigFile where
  present : Bool
  parsed : Option FileContent
deriving DecidableEq

/-- The configuration dictionary built by `Config.load_config`. -/
structure ConfigDict where
  baidu_appid : String
  baidu_secret_key : String
  ocr_language : String
deriving DecidableEq

/-- Embedding of `Config.load_config` (config.py lines 15-59): start from the
environment (default `''`), then let a present, non-empty `config.json`
entry overwrite each credential, and a present `ocr_language` key
overwrite the language. -/
def load_config (env : EnvVars) (file : ConfigFile) : ConfigDict :=
  let d : ConfigDict :=
    { baidu_appid := env.BAIDU_APPID.getD ""
      baidu_secret_key := env.BAIDU_SECRET_KEY.getD ""
      ocr_language := "japan" }
  if file.present then
    match file.parsed with
    | none => d
    | some loaded =>
      let d :=
        match loaded.baidu_appid with
        | some v => if pyTruthy v then { d with baidu_appid := v } else d
        | none => d
      let d :=
        match loaded.baidu_secret_key with
        | some v => if pyTruthy v then { d with baidu_secret_key := v } else d
        | none => d
      match loaded.ocr_language with
      | some v => { d with ocr_language := v }
      | none => d
  else d

/-- Embedding of `Config.get` (config.py lines 69-71): `self.config.get(key, default)`
on the dictionary built by `load_config`. -/
def config_get (c : ConfigDict) (key : String) (dflt : Option String) : Option String :=
  if key = "baidu_appid" then some c.baidu_appid
  else if key = "baidu_secret_key" then some c.baidu_secret_key
  else if key = "ocr_language" then some c.ocr_language
  else dflt

/-! ## `translator/ocr_engine.py` — `OCREngine`

The engine's confidence floats and pixel coordinates are modelled as
`ℚ`.  Which backend was initialized (`self.ocr_type`), and what the
underlying engine call returned or raised, are explicit inputs to
`recognize`. -/

/-- A normalized recognition item: the dict
`{'text': …, 'confidence': …, 'box': …}` built by both recognizers. -/
structure OcrItem where
  text : String
  confidence : ℚ
  box : List (ℚ × ℚ)
deriving DecidableEq

/-- Embedding of `_recognize_easyocr` (ocr_engine.py lines 168-207): EasyOCR yields
`(bbox, text, confidence)` triples; items with
`confidence < confidence_threshold` are skipped (`continue`), the rest
are normalized in order. -/
def recognize_easyocr (confidence_threshold : ℚ)
    (result : List (List (ℚ × ℚ) × String × ℚ)) : List OcrItem :=
  result.filterMap fun r =>
    if r.2.2 < confidence_threshold then none
    else some { text := r.2.1, confidence := r.2.2, box := r.1 }

/-- The `line[1]` payload of one PaddleOCR line: a `(text, confidence)`
pair, a bare string, or anything else (skipped by the source). -/
inductive PaddleInfo where
  | pair (text : String) (confidence : ℚ)
  | str (text : String)
  | other
deriving DecidableEq

/-- One PaddleOCR line `[box, text_info]`. -/
structure PaddleLine where
  box : List (ℚ × ℚ)
  info : PaddleInfo
deriving DecidableEq

/-- The per-line normalization of `_recognize_paddleocr` (ocr_engine.py
lines 228-252): a falsy line is skipped, a `(text, confidence)` payload
is taken as-is, a bare string payload gets confidence `1.0`, and any
other payload shape is skipped (`continue`). -/
def parse_paddle_line (line : Option PaddleLine) : Option OcrItem :=
  match line with
  | none => none
  | some l =>
    match l.info with
    | .pair t c => some { text := t, confidence := c, box := l.box }
    | .str t => some { text := t, confidence := 1, box := l.box }
    | .other => none

/-- Embedding of `_recognize_paddleocr` (ocr_engine.py lines 209-254): `none` models
`not result or not result[0]` (no page), otherwise every line of the
first page is normalized with no confidence filtering. -/
def recognize_paddleocr (res : Option (List (Option PaddleLine))) : List OcrItem :=
  match res with
  | none => []
  | some lines => lines.filterMap parse_paddle_line

/-- What the environment did when `OCREngine.recognize` ran: no engine
was initialized, something inside the `try` raised, or one of the two
backends produced its raw result. -/
inductive EngineOutcome where
  | noEngine
  | raisesExn (msg : String)
  | easy (result : List (List (ℚ × ℚ) × String × ℚ))
  | paddle (res : Option (List (Option PaddleLine)))

/-- Embedding of `OCREngine.recognize` (ocr_engine.py lines 125-166): `[]` when
`self.ocr is None` or when anything in the `try` block raises,
otherwise dispatch on `self.ocr_type`. -/
def OCREngine.recognize (confidence_threshold : ℚ) (outcome : EngineOutcome) : List OcrItem :=
  match outcome with
  | .noEngine => []
  | .raisesExn _ => []
  | .easy result => recognize_easyocr confidence_threshold result
  | .paddle res => recognize_paddleocr res

/-! ## `translator/translate_service_server.py` — orchestrator

`init_services` only populates the process-wide singletons; its
observable product (the availability flag of the Qwen translator, the
Baidu credentials from the config, and the outcomes of the external
calls made during this request) is collected in `Services`.  The OCR
result is passed through a `StageResult` so that an unexpected
exception raised before or during recognition is representable; the
`try`/`except` of `translate_region` maps every such exception to `[]`.
-/

/-- Python `int(x)` on a number: truncation toward zero. -/
def pyInt (q : ℚ) : Int := if 0 ≤ q then Rat.floor q else Rat.ceil q

/-- Python two-argument `min` on numbers (first argument kept on ties). -/
def pymin (a b : ℚ) : ℚ := if a ≤ b then a else b

/-- Python two-argument `max` on numbers. -/
def pymax (a b : ℚ) : ℚ := if a ≤ b then b else a

/-- Python `min(list)`: `none` models the `ValueError` raised on an
empty list. -/
def pyMinList : List ℚ → Option ℚ
  | [] => none
  | x :: xs => some (xs.foldl pymin x)

/-- Python `max(list)`. -/
def pyMaxList : List ℚ → Option ℚ
  | [] => none
  | x :: xs => some (xs.foldl pymax x)

/-- The axis-aligned box derived in the merge loop (spec §3
"GeometryBox"). -/
structure GeometryBox where
  x : Int
  y : Int
  width : Int
  height : Int
deriving DecidableEq

/-- One dict of the `text_blocks` list built by `translate_region`. -/
structure TextBlock where
  x : Int
  y : Int
  width : Int
  height : Int
  original : String
  translated : String
  confidence : ℚ
deriving DecidableEq

/-- The bounding-box computation of `translate_region`
(translate_service_server.py lines 184-191):
`x = int(min(xs))`, `y = int(min(ys))`, `width = int(max(xs) - min(xs))`,
`height = int(max(ys) - min(ys))`; `none` models the `ValueError` of
`min`/`max` on an empty polygon. -/
def mkBounds (boxes : List (ℚ × ℚ)) : Option GeometryBox :=
  let x_coords := boxes.map Prod.fst
  let y_coords := boxes.map Prod.snd
  match pyMinList x_coords, pyMinList y_coords, pyMaxList x_coords, pyMaxList y_coords with
  | some xmin, some ymin, some xmax, some ymax =>
    some { x := pyInt xmin, y := pyInt ymin
           width := pyInt (xmax - xmin), height := pyInt (ymax - ymin) }
  | _, _, _, _ => none

/-- One iteration of the merge loop of `translate_region`
(translate_service_server.py lines 179-203). -/
def mkTextBlock (item : OcrItem) (translated : String) : Option TextBlock :=
  (mkBounds item.box).map fun b =>
    { x := b.x, y := b.y, width := b.width, height := b.height
      original := item.text, translated := translated, confidence := item.confidence }

/-- The whole merge loop: `zip(result, translations)` processed in
order; `none` models an exception part-way through, which discards the
partially built list (the `except` of `translate_region` catches it). -/
def buildBlocks (result : List OcrItem) (translations : List String) :
    Option (List TextBlock) :=
  (result.zip translations).mapM fun p => mkTextBlock p.1 p.2

/-- The service state assembled by `init_services` plus the outcomes of
this request's external calls: `qwen_available` is
`qwen_translator.available`, `qwen_call` is the Ollama batch-call
outcome, the Baidu credentials come from `config.get`, and
`baidu_outcome` gives the HTTP outcome of the per-text Baidu call. -/
structure Services where
  qwen_available : Bool
  qwen_call : Option String
  baidu_appid : String
  baidu_secret_key : String
  baidu_outcome : String → BaiduOutcome

/-- A stage that either completed with a value or raised an unexpected
exception. -/
inductive StageResult (α : Type) where
  | ok (val : α)
  | exn (msg : String)

/-- Embedding of `translate_region` (translate_service_server.py lines 107-214):
unexpected exceptions (`.exn`, or a merge failure) are caught by the
enclosing `try`/`except` and mapped to `[]`; an empty OCR result
returns `[]` directly; otherwise the Qwen batch path is preferred when
available and the per-item Baidu path is the fallback, and the merge
loop zips items with translations. -/
def translate_region (svc : Services) (ocrOutcome : StageResult (List OcrItem)) :
    List TextBlock :=
  match ocrOutcome with
  | .exn _ => []
  | .ok result =>
    if result.isEmpty then []
    else
      let translations :=
        if svc.qwen_available then
          translate_batch svc.qwen_available svc.qwen_call (result.map (fun item => item.text))
        else
          result.map fun item =>
            baidu_translate svc.baidu_appid svc.baidu_secret_key
              (svc.baidu_outcome item.text) item.text
      match buildBlocks result translations with
      | none => []
      | some text_blocks => text_blocks

/-- The JSON object printed by the `__main__` block
(translate_service_server.py lines 243-248). -/
structure MainResult where
  success : Bool
  textBlocks : List TextBlock
deriving DecidableEq

/-- Embedding of `result = {'success': True, 'textBlocks': text_blocks}`
(translate_service_server.py lines 244-247): `success` is
unconditionally `True`. -/
def main_output (text_blocks : List TextBlock) : MainResult :=
  { success := true, textBlocks := text_blocks }

/-! ## Helper lemmas -/

/-- The function `_parse_batch_result` always returns exactly `expected_count`
translations: padding repairs a short parse, truncation a long one. -/
theorem parse_batch_result_length (result : String) (expected_count : Nat) :
    (parse_batch_result result expected_count).length = expected_count := by
  unfold parse_batch_result
  by_cases h : (parse_lines (pySplit (pyStrip result) "\n")).length < expected_count <;>
    simp [h, List.length_take] <;> omega

/-- The write-back fold never changes the length of the accumulator. -/
theorem foldl_set_length (ps : List ((Nat × String) × String)) (init : List String) :
    (ps.foldl (fun acc p => acc.set p.1.1 p.2) init).length = init.length := by
  induction ps generalizing init with
  | nil => rfl
  | cons p ps ih => simp [ih, List.length_set]

/-- An index written by none of the pairs keeps its initial value. -/
theorem foldl_set_getElem?_not_mem (ps : List ((Nat × String) × String)) (init : List String)
    (i : Nat) (h : ∀ p ∈ ps, p.1.1 ≠ i) :
    (ps.foldl (fun acc p => acc.set p.1.1 p.2) init)[i]? = init[i]? := by
  induction ps generalizing init with
  | nil => rfl
  | cons p ps ih =>
    rw [List.foldl_cons, ih _ fun q hq => h q (List.mem_cons_of_mem _ hq)]
    exact List.getElem?_set_ne (h p (List.mem_cons_self _ _))

/-- When the written indices are pairwise distinct and in bounds, the
`k`-th pair's value ends up at the `k`-th pair's index. -/
theorem foldl_set_getElem?_aligned (ps : List ((Nat × String) × String)) :
    ∀ (init : List String) (k : Nat) (q : (Nat × String) × String),
      ps[k]? = some q →
      (ps.map fun p => p.1.1).Nodup →
      (∀ p ∈ ps, p.1.1 < init.length) →
      (ps.foldl (fun acc p => acc.set p.1.1 p.2) init)[q.1.1]? = some q.2 := by
  induction ps with
  | nil => intro init k q hq _ _; simp at hq
  | cons p ps ih =>
    intro init k q hq hnd hb
    rw [List.map_cons, List.nodup_cons] at hnd
    rw [List.foldl_cons]
    cases k with
    | zero =>
      rw [List.getElem?_cons_zero, Option.some_inj] at hq
      subst hq
      have hnotmem : ∀ r ∈ ps, r.1.1 ≠ p.1.1 := by
        intro r hr heq
        exact hnd.1 (List.mem_map.mpr ⟨r, hr, heq⟩)
      rw [foldl_set_getElem?_not_mem _ _ _ hnotmem]
      exact List.getElem?_set_self (hb p (List.mem_cons_self _ _))
    | succ k =>
      rw [List.getElem?_cons_succ] at hq
      refine ih _ k q hq hnd.2 ?_
      intro r hr
      rw [List.length_set]
      exact hb r (List.mem_cons_of_mem _ hr)

/-- Every pair selected by the comprehension of `translate_batch` is a
genuine (index, text) pair of `texts` whose text is non-empty and not
whitespace-only. -/
theorem nonEmptyEnum_mem (texts : List String) (p : Nat × String)
    (hp : p ∈ nonEmptyEnum texts) :
    texts[p.1]? = some p.2 ∧ pyTruthy p.2 = true ∧ pyTruthy (pyStrip p.2) = true := by
  obtain ⟨i, s⟩ := p
  have h := List.mem_filter.mp hp
  have h2 := List.mem_enumFrom (show (i, s) ∈ List.enumFrom 0 texts by simpa [List.enum] using h.1)
  refine ⟨?_, ?_, ?_⟩
  · rw [List.getElem?_eq_getElem (by omega)]
    simpa using (congrArg some h2.2.2).symm
  · exact (Bool.and_eq_true_iff.mp h.2).1
  · exact (Bool.and_eq_true_iff.mp h.2).2

/-- The indices selected by the comprehension of `translate_batch` are
pairwise distinct (they come from `enumerate`). -/
theorem filter_enumFrom_fst_nodup (pred : Nat × String → Bool) (l : List String) :
    ∀ n : Nat, (((List.enumFrom n l).filter pred).map Prod.fst).Nodup := by
  induction l with
  | nil => simp
  | cons x xs ih =>
    intro n
    rw [List.enumFrom_cons]
    by_cases hp : pred (n, x)
    · rw [List.filter_cons_of_pos hp, List.map_cons]
      refine List.nodup_cons.mpr ⟨?_, ih (n + 1)⟩
      intro hmem
      obtain ⟨q, hq, hfst⟩ := List.mem_map.mp hmem
      obtain ⟨j, s⟩ := q
      have h2 := List.mem_enumFrom (List.mem_filter.mp hq).1
      simp only at hfst
      omega
    · rw [List.filter_cons_of_neg hp]
      exact ih (n + 1)

/-- The `nonEmptyEnum` instance of `filter_enumFrom_fst_nodup`. -/
theorem nonEmptyEnum_fst_nodup (texts : List String) :
    ((nonEmptyEnum texts).map Prod.fst).Nodup := by
  simpa [nonEmptyEnum, List.enum] using
    filter_enumFrom_fst_nodup (fun p => pyTruthy p.2 && pyTruthy (pyStrip p.2)) texts 0

/-- Python `min` folding: the result is bounded by the seed. -/
theorem foldl_pymin_le_init (xs : List ℚ) : ∀ x : ℚ, xs.foldl pymin x ≤ x := by
  induction xs with
  | nil => intro x; exact le_refl x
  | cons y ys ih =>
    intro x
    rw [List.foldl_cons]
    refine le_trans (ih (pymin x y)) ?_
    unfold pymin
    split
    · exact le_refl x
    · exact le_of_not_le (by assumption)

/-- Python `min` folding: the result is bounded by every element. -/
theorem foldl_pymin_le_mem (xs : List ℚ) : ∀ (x a : ℚ), a ∈ xs → xs.foldl pymin x ≤ a := by
  induction xs with
  | nil => intro x a ha; simp at ha
  | cons y ys ih =>
    intro x a ha
    rw [List.foldl_cons]
    rcases List.mem_cons.mp ha with h | h
    · subst h
      refine le_trans (foldl_pymin_le_init ys (pymin x a)) ?_
      unfold pymin
      split
      · assumption
      · exact le_refl a
    · exact ih _ a h

/-- Python `min` folding: the result is the seed or an element. -/
theorem foldl_pymin_mem (xs : List ℚ) : ∀ x : ℚ, xs.foldl pymin x = x ∨ xs.foldl pymin x ∈ xs := by
  induction xs with
  | nil => intro x; exact Or.inl rfl
  | cons y ys ih =>
    intro x
    rw [List.foldl_cons]
    rcases ih (pymin x y) with h | h
    · rw [h]
      unfold pymin
      split
      · exact Or.inl rfl
      · exact Or.inr (List.mem_cons_self _ _)
    · exact Or.inr (List.mem_cons_of_mem _ h)

/-- Python `max` folding: the result is bounded below by the seed. -/
theorem foldl_pymax_ge_init (xs : List ℚ) : ∀ x : ℚ, x ≤ xs.foldl pymax x := by
  induction xs with
  | nil => intro x; exact le_refl x
  | cons y ys ih =>
    intro x
    rw [List.foldl_cons]
    refine le_trans ?_ (ih (pymax x y))
    unfold pymax
    split
    · assumption
    · exact le_refl x

/-- Python `max` folding: the result dominates every element. -/
theorem foldl_pymax_ge_mem (xs : List ℚ) : ∀ (x a : ℚ), a ∈ xs → a ≤ xs.foldl pymax x := by
  induction xs with
  | nil => intro x a ha; simp at ha
  | cons y ys ih =>
    intro x a ha
    rw [List.foldl_cons]
    rcases List.mem_cons.mp ha with h | h
    · subst h
      refine le_trans ?_ (foldl_pymax_ge_init ys (pymax x a))
      unfold pymax
      split
      · exact le_refl a
      · exact le_of_not_le (by assumption)
    · exact ih _ a h

/-- Python `max` folding: the result is the seed or an element. -/
theorem foldl_pymax_mem (xs : List ℚ) : ∀ x : ℚ, xs.foldl pymax x = x ∨ xs.foldl pymax x ∈ xs := by
  induction xs with
  | nil => intro x; exact Or.inl rfl
  | cons y ys ih =>
    intro x
    rw [List.foldl_cons]
    rcases ih (pymax x y) with h | h
    · rw [h]
      unfold pymax
      split
      · exact Or.inr (List.mem_cons_self _ _)
      · exact Or.inl rfl
    · exact Or.inr (List.mem_cons_of_mem _ h)

/-- Python `min(l)` on a nonempty list returns the least element of `l`. -/
theorem pyMinList_spec (l : List ℚ) (h : l ≠ []) :
    ∃ m, pyMinList l = some m ∧ m ∈ l ∧ ∀ a ∈ l, m ≤ a := by
  cases l with
  | nil => exact absurd rfl h
  | cons x xs =>
    refine ⟨xs.foldl pymin x, rfl, ?_, ?_⟩
    · rcases foldl_pymin_mem xs x with h2 | h2
      · rw [h2]; exact List.mem_cons_self _ _
      · exact List.mem_cons_of_mem _ h2
    · intro a ha
      rcases List.mem_cons.mp ha with h2 | h2
      · subst h2; exact foldl_pymin_le_init xs a
      · exact foldl_pymin_le_mem xs x a h2

/-- Python `max(l)` on a nonempty list returns the greatest element of `l`. -/
theorem pyMaxList_spec (l : List ℚ) (h : l ≠ []) :
    ∃ m, pyMaxList l = some m ∧ m ∈ l ∧ ∀ a ∈ l, a ≤ m := by
  cases l with
  | nil => exact absurd rfl h
  | cons x xs =>
    refine ⟨xs.foldl pymax x, rfl, ?_, ?_⟩
    · rcases foldl_pymax_mem xs x with h2 | h2
      · rw [h2]; exact List.mem_cons_self _ _
      · exact List.mem_cons_of_mem _ h2
    · intro a ha
      rcases List.mem_cons.mp ha with h2 | h2
      · subst h2; exact foldl_pymax_ge_init xs a
      · exact foldl_pymax_ge_mem xs x a h2

/-! ## Claims -/

/-- Claim C1, counterexample: when a stage of `translate_region` raises
an unexpected exception, the orchestrator does return an empty
text-block sequence, but the top-level JSON object still reports
`success: true` — never `success: false` as the claim states. -/
theorem C1_counterexample :
    main_output
        (translate_region
          { qwen_available := false, qwen_call := none, baidu_appid := "id"
            baidu_secret_key := "key", baidu_outcome := fun _ => BaiduOutcome.other }
          (StageResult.exn "unexpected failure")) =
      { success := true, textBlocks := [] } ∧
    ({ success := true, textBlocks := [] } : MainResult).success ≠ false :=
  ⟨rfl, by decide⟩

/-- Claim C1, amended: if any stage of the region-translation pipeline
raises an unexpected exception, the orchestrator catches it at its
boundary and returns an empty text-block sequence, and the top-level
JSON object written to standard output reports `success: true` with an
empty `textBlocks` list — never a partial or corrupt result list; the
`success` field is unconditionally `true` on every code path. -/
theorem C1_amended :
    (∀ (svc : Services) (msg : String),
        translate_region svc (StageResult.exn msg) = [] ∧
        main_output (translate_region svc (StageResult.exn msg)) =
          { success := true, textBlocks := [] }) ∧
    ∀ text_blocks : List TextBlock, (main_output text_blocks).success = true :=
  ⟨fun _ _ => ⟨rfl, rfl⟩, fun _ => rfl⟩

/-- Claim C3 (code bug): the PaddleOCR branch of `OCREngine.recognize`
never applies the confidence filter, so an item whose confidence (3/10)
is below the configured threshold (1/2) appears in the output —
contradicting both the claim and the class's own docstring; the EasyOCR
branch drops the same item as documented. -/
theorem C3_code_behavior :
    OCREngine.recognize (mkRat 1 2)
        (EngineOutcome.paddle (some [some { box := [(0, 0), (10, 0), (10, 10), (0, 10)]
                                            info := PaddleInfo.pair "テスト" (mkRat 3 10) }])) =
      [{ text := "テスト", confidence := mkRat 3 10, box := [(0, 0), (10, 0), (10, 10), (0, 10)] }] ∧
    mkRat 3 10 < mkRat 1 2 ∧
    OCREngine.recognize (mkRat 1 2)
        (EngineOutcome.easy [([(0, 0), (10, 0), (10, 10), (0, 10)], "テスト", mkRat 3 10)]) = [] := by
  refine ⟨by decide, by decide, by decide⟩

/-- Claim C4 (code bug): with `BAIDU_APPID=env-id` and
`BAIDU_SECRET_KEY=env-key` set in the environment and a readable
`config.json` carrying non-empty `baidu_appid`/`baidu_secret_key`
entries, `Config.get` returns the file values — the file overrides the
environment, the opposite of the documented env-over-file priority. -/
theorem C4_code_behavior :
    config_get
        (load_config { BAIDU_APPID := some "env-id", BAIDU_SECRET_KEY := some "env-key" }
          { present := true
            parsed := some { baidu_appid := some "file-id", baidu_secret_key := some "file-key"
                             ocr_language := none } })
        "baidu_appid" none = some "file-id" ∧
    config_get
        (load_config { BAIDU_APPID := some "env-id", BAIDU_SECRET_KEY := some "env-key" }
          { present := true
            parsed := some { baidu_appid := some "file-id", baidu_secret_key := some "file-key"
                             ocr_language := none } })
        "baidu_secret_key" none = some "file-key" ∧
    ("file-id" : String) ≠ "env-id" := by
  refine ⟨by decide, by decide, by decide⟩

/-- Claim C5 (code bug): with two OCR items surviving the confidence
filter, one of which has whitespace-only text, a Qwen dependency-call
failure makes `translate_batch` return a single-element list, and the
`zip` in the merge loop silently truncates the output to one
`TranslatedBlock` — fewer than the number of surviving items. -/
theorem C5_code_behavior :
    (translate_region
        { qwen_available := true, qwen_call := none, baidu_appid := ""
          baidu_secret_key := "", baidu_outcome := fun _ => BaiduOutcome.other }
        (StageResult.ok
          [{ text := " ", confidence := mkRat 9 10, box := [(0, 0), (10, 0), (10, 10), (0, 10)] },
           { text := "あ", confidence := mkRat 9 10, box := [(0, 0), (10, 0), (10, 10), (0, 10)] }])).length
      = 1 ∧
    ([{ text := " ", confidence := mkRat 9 10, box := [(0, 0), (10, 0), (10, 10), (0, 10)] },
      { text := "あ", confidence := mkRat 9 10, box := [(0, 0), (10, 0), (10, 10), (0, 10)] }] :
        List OcrItem).length = 2 := by
  refine ⟨by decide, by decide⟩

/-- Claim C6, counterexample: in
`"自动...ok...解釋很長的附加說明文字"` the text following the first
ellipsis (`"ok...解釋很長的附加說明文字"`, 13 characters) exceeds 5
characters, yet `_clean_translation` leaves the string unmodified
instead of truncating it to `"自动"`: the code measures `parts[1]`, the
segment between the first and second ellipsis, not all following text. -/
theorem C6_counterexample :
    pyLen (pySplitOnce "自动...ok...解釋很長的附加說明文字" "...").2 > 5 ∧
    clean_translation "自动...ok...解釋很長的附加說明文字" =
      "自动...ok...解釋很長的附加說明文字" ∧
    ("自动...ok...解釋很長的附加說明文字" : String) ≠ "自动" := by
  refine ⟨by decide, by decide, by decide⟩

/-- Claim C6, amended: for every string containing the ellipsis token
`...`, if the segment between the first ellipsis and the next ellipsis
(or end of string) exceeds 5 characters, the result is the text before
the first ellipsis, stripped of surrounding whitespace; otherwise the
text is preserved apart from stripping; in particular
`"自动...解釋很長的附加說明文字"` maps to `"自动"` and `"自动...ok"`
is left unmodified. -/
theorem C6_amended :
    (∀ text : String, pyContains text "..." = true →
      (pyLen ((pySplit text "...").getD 1 "") > 5 →
        clean_translation text = pyStrip ((pySplit text "...").getD 0 "")) ∧
      (¬ pyLen ((pySplit text "...").getD 1 "") > 5 →
        clean_translation text = pyStrip text)) ∧
    clean_translation "自动...解釋很長的附加說明文字" = "自动" ∧
    clean_translation "自动...ok" = "自动...ok" := by
  refine ⟨?_, by decide, by decide⟩
  intro text hc
  have hlen : (pySplit text "...").length > 1 := of_decide_eq_true hc
  constructor
  · intro h5
    unfold clean_translation
    rw [if_pos hc, if_pos ⟨hlen, h5⟩]
  · intro h5
    unfold clean_translation
    rw [if_pos hc, if_neg fun hand => h5 hand.2]

/-- Claim C6, witness for the amended theorem at the concrete input of
the claim. -/
theorem C6_amended_witness :
    clean_translation "自动...解釋很長的附加說明文字" =
      pyStrip ((pySplit "自动...解釋很長的附加說明文字" "...").getD 0 "") :=
  (C6_amended.1 "自动...解釋很長的附加說明文字" (by decide)).1 (by decide)

/-- Claim C7: for every model response string and every expected count
`n`, `_parse_batch_result` returns exactly `n` translations — short
parses are padded with the `"翻译结果不完整"` placeholder, long parses
are truncated; with expected count 3 and a response of 2 numbered lines
the result has length 3 and the placeholder in slot 3. -/
theorem C7_parse_repair :
    (∀ (result : String) (expected_count : Nat),
        (parse_batch_result result expected_count).length = expected_count) ∧
    (∀ (result : String) (expected_count : Nat),
        (parse_lines (pySplit (pyStrip result) "\n")).length < expected_count →
        parse_batch_result result expected_count =
          parse_lines (pySplit (pyStrip result) "\n") ++
            List.replicate
              (expected_count - (parse_lines (pySplit (pyStrip result) "\n")).length)
              "翻译结果不完整") ∧
    (∀ (result : String) (expected_count : Nat),
        ¬ (parse_lines (pySplit (pyStrip result) "\n")).length < expected_count →
        parse_batch_result result expected_count =
          (parse_lines (pySplit (pyStrip result) "\n")).take expected_count) ∧
    parse_batch_result "1. 你好\n2. 谢谢" 3 = ["你好", "谢谢", "翻译结果不完整"] := by
  refine ⟨parse_batch_result_length, ?_, ?_, by decide⟩
  · intro result expected_count h
    simp only [parse_batch_result, if_pos h]
    refine List.take_of_length_le ?_
    rw [List.length_append, List.length_replicate]
    omega
  · intro result expected_count h
    simp only [parse_batch_result, if_neg h]

/-- Claim C7, witness: the padding branch at the 2-lines-for-3 input of
the claim. -/
theorem C7_parse_repair_witness :
    parse_batch_result "1. 你好\n2. 谢谢" 3 =
      parse_lines (pySplit (pyStrip "1. 你好\n2. 谢谢") "\n") ++
        List.replicate
          (3 - (parse_lines (pySplit (pyStrip "1. 你好\n2. 谢谢") "\n")).length)
          "翻译结果不完整" :=
  C7_parse_repair.2.1 "1. 你好\n2. 谢谢" 3 (by decide)

/-- Claim C8, counterexample: on empty input, `QwenTranslator.translate`
with an unavailable backend returns the literal `"Qwen翻译器不可用"`,
and `BaiduTranslator.translate` with unconfigured credentials returns
the literal `"请先配置百度翻译API密钥"` — both checks precede the
empty-input check, so the empty string is not returned. -/
theorem C8_counterexample :
    qwen_translate false none "" = "Qwen翻译器不可用" ∧
    ("Qwen翻译器不可用" : String) ≠ "" ∧
    baidu_translate "" "secret" BaiduOutcome.other "" = "请先配置百度翻译API密钥" ∧
    ("请先配置百度翻译API密钥" : String) ≠ "" := by
  refine ⟨by decide, by decide, by decide, by decide⟩

/-- Claim C8, amended: when the Qwen backend is available (resp. the
Baidu credentials are configured), `translate` on an empty or
whitespace-only input returns the empty string without invoking the
dependency (the result is independent of the dependency outcome); when
the backend is unavailable (resp. unconfigured) the availability
literal takes precedence and is returned even for empty input. -/
theorem C8_amended :
    (∀ (callResult : Option String) (text : String), pyStrip text = "" →
        qwen_translate true callResult text = "") ∧
    (∀ (callResult : Option String) (text : String),
        qwen_translate false callResult text = "Qwen翻译器不可用") ∧
    (∀ (appid secret_key : String) (outcome : BaiduOutcome) (text : String),
        appid ≠ "" → secret_key ≠ "" → pyStrip text = "" →
        baidu_translate appid secret_key outcome text = "") ∧
    (∀ (appid secret_key : String) (outcome : BaiduOutcome) (text : String),
        appid = "" ∨ secret_key = "" →
        baidu_translate appid secret_key outcome text = "请先配置百度翻译API密钥") := by
  refine ⟨?_, ?_, ?_, ?_⟩
  · intro c text h
    simp [qwen_translate, h]
  · intro c text
    simp [qwen_translate]
  · intro a s o text ha hs h
    simp [baidu_translate, ha, hs, h]
  · intro a s o text h
    rcases h with h | h <;> simp [baidu_translate, h]

/-- Claim C8, witness for the amended theorem on whitespace-only
inputs with both backends ready. -/
theorem C8_amended_witness :
    qwen_translate true (some "ignored") " " = "" ∧
    baidu_translate "id" "key" BaiduOutcome.other " " = "" :=
  ⟨C8_amended.1 (some "ignored") " " (by decide),
   C8_amended.2.2.1 "id" "key" BaiduOutcome.other " " (by decide) (by decide) (by decide)⟩

/-- Claim C9: the bounding box derived from a recognized item's polygon
is `x = min(xs)`, `y = min(ys)`, `width = max(xs) - min(xs)`,
`height = max(ys) - min(ys)` as integers (where min/max are genuine
least/greatest elements of the coordinate lists), and for the polygon
`[(5,5),(25,5),(25,15),(5,15)]` the box is
`{x:5, y:5, width:20, height:10}`. -/
theorem C9_box_derivation :
    (∀ poly : List (ℚ × ℚ), poly ≠ [] →
      ∃ xmin ymin xmax ymax : ℚ,
        (xmin ∈ poly.map Prod.fst ∧ ∀ a ∈ poly.map Prod.fst, xmin ≤ a) ∧
        (ymin ∈ poly.map Prod.snd ∧ ∀ a ∈ poly.map Prod.snd, ymin ≤ a) ∧
        (xmax ∈ poly.map Prod.fst ∧ ∀ a ∈ poly.map Prod.fst, a ≤ xmax) ∧
        (ymax ∈ poly.map Prod.snd ∧ ∀ a ∈ poly.map Prod.snd, a ≤ ymax) ∧
        mkBounds poly = some { x := pyInt xmin, y := pyInt ymin
                               width := pyInt (xmax - xmin), height := pyInt (ymax - ymin) }) ∧
    mkBounds [(5, 5), (25, 5), (25, 15), (5, 15)] =
      some { x := 5, y := 5, width := 20, height := 10 } := by
  constructor
  · intro poly hne
    have hx : poly.map Prod.fst ≠ [] := by simpa using hne
    have hy : poly.map Prod.snd ≠ [] := by simpa using hne
    obtain ⟨xmin, hxm, hxmem, hxle⟩ := pyMinList_spec _ hx
    obtain ⟨ymin, hym, hymem, hyle⟩ := pyMinList_spec _ hy
    obtain ⟨xmax, hxM, hxMmem, hxMge⟩ := pyMaxList_spec _ hx
    obtain ⟨ymax, hyM, hyMmem, hyMge⟩ := pyMaxList_spec _ hy
    refine ⟨xmin, ymin, xmax, ymax, ⟨hxmem, hxle⟩, ⟨hymem, hyle⟩,
      ⟨hxMmem, hxMge⟩, ⟨hyMmem, hyMge⟩, ?_⟩
    simp only [mkBounds]
    rw [hxm, hym, hxM, hyM]
  · norm_num [mkBounds, pyMinList, pyMaxList, pymin, pymax, pyInt, Rat.floor]

/-- Claim C9, witness: the general derivation applied to the concrete
polygon of the claim. -/
theorem C9_box_derivation_witness :
    ∃ xmin ymin xmax ymax : ℚ,
      (xmin ∈ ([(5, 5), (25, 5), (25, 15), (5, 15)] : List (ℚ × ℚ)).map Prod.fst ∧
        ∀ a ∈ ([(5, 5), (25, 5), (25, 15), (5, 15)] : List (ℚ × ℚ)).map Prod.fst, xmin ≤ a) ∧
      (ymin ∈ ([(5, 5), (25, 5), (25, 15), (5, 15)] : List (ℚ × ℚ)).map Prod.snd ∧
        ∀ a ∈ ([(5, 5), (25, 5), (25, 15), (5, 15)] : List (ℚ × ℚ)).map Prod.snd, ymin ≤ a) ∧
      (xmax ∈ ([(5, 5), (25, 5), (25, 15), (5, 15)] : List (ℚ × ℚ)).map Prod.fst ∧
        ∀ a ∈ ([(5, 5), (25, 5), (25, 15), (5, 15)] : List (ℚ × ℚ)).map Prod.fst, a ≤ xmax) ∧
      (ymax ∈ ([(5, 5), (25, 5), (25, 15), (5, 15)] : List (ℚ × ℚ)).map Prod.snd ∧
        ∀ a ∈ ([(5, 5), (25, 5), (25, 15), (5, 15)] : List (ℚ × ℚ)).map Prod.snd, a ≤ ymax) ∧
      mkBounds [(5, 5), (25, 5), (25, 15), (5, 15)] =
        some { x := pyInt xmin, y := pyInt ymin
               width := pyInt (xmax - xmin), height := pyInt (ymax - ymin) } :=
  C9_box_derivation.1 [(5, 5), (25, 5), (25, 15), (5, 15)] (by decide)

/-- Claim C10: when the PaddleOCR path is active and a recognized
line's text payload is a bare string, `OCREngine.recognize` includes
that item in its output with confidence exactly `1.0`, wherever the
line sits in the page — so a reported confidence of `1.0` may be a
fabricated default rather than a measured score. -/
theorem C10_paddle_default_confidence (confidence_threshold : ℚ)
    (pre post : List (Option PaddleLine)) (box : List (ℚ × ℚ)) (t : String) :
    ({ text := t, confidence := 1, box := box } : OcrItem) ∈
      OCREngine.recognize confidence_threshold
        (EngineOutcome.paddle (some (pre ++ some { box := box, info := PaddleInfo.str t } :: post))) := by
  simp only [OCREngine.recognize, recognize_paddleocr]
  rw [List.filterMap_append, List.filterMap_cons]
  simp [parse_paddle_line]

/-- Claim C2, counterexample: `translate_batch` on `["", "a"]` with an
unavailable backend fills every slot — including the empty-input slot —
with the literal `"Qwen翻译器不可用"`, and with an available backend
whose dependency call fails it returns a single-element list, violating
both the empty-position and the same-length guarantees of the claim. -/
theorem C2_counterexample :
    translate_batch false none ["", "a"] = ["Qwen翻译器不可用", "Qwen翻译器不可用"] ∧
    (translate_batch false none ["", "a"])[0]? ≠ some "" ∧
    translate_batch true none ["", "a"] = ["翻译失败: a"] ∧
    (translate_batch true none ["", "a"]).length ≠ (["", "a"] : List String).length := by
  refine ⟨by decide, by decide, by decide, by decide⟩

/-- Claim C2, amended: when the backend is available and the dependency
call succeeds with a non-empty response, `translate_batch` returns a
list of exactly the input's length in which every empty or
whitespace-only position holds the empty string and every non-empty
position receives the parsed translation of its rank among the
non-empty inputs (order preserved); when the backend is unavailable it
returns a same-length list every slot of which holds the literal
`"Qwen翻译器不可用"`; when the dependency call fails or returns an
empty response it returns one `"翻译失败: "` string per non-empty
input, so its length is the number of non-empty inputs. -/
theorem C2_amended :
    (∀ (texts : List String) (r : String), r ≠ "" →
        (translate_batch true (some r) texts).length = texts.length ∧
        (∀ (i : Nat) (t : String), texts[i]? = some t → pyStrip t = "" →
          (translate_batch true (some r) texts)[i]? = some "") ∧
        (∀ (k idx : Nat) (t : String), (nonEmptyEnum texts)[k]? = some (idx, t) →
          (translate_batch true (some r) texts)[idx]? =
            (parse_batch_result r (nonEmptyEnum texts).length)[k]?)) ∧
    (∀ (texts : List String) (callResult : Option String),
        translate_batch false callResult texts =
          List.replicate texts.length "Qwen翻译器不可用") ∧
    (∀ (texts : List String) (callResult : Option String),
        pyTruthyResult callResult = false → nonEmptyEnum texts ≠ [] →
        translate_batch true callResult texts =
          (nonEmptyEnum texts).map fun p => "翻译失败: " ++ p.2) := by
  refine ⟨?_, ?_, ?_⟩
  · intro texts r hr
    cases htexts : texts.isEmpty with
    | true =>
      have hnil : texts = [] := List.isEmpty_iff.mp htexts
      subst hnil
      refine ⟨rfl, ?_, ?_⟩
      · intro i t hit _
        simp at hit
      · intro k idx t hk
        simp [nonEmptyEnum] at hk
    | false =>
      cases hne : (nonEmptyEnum texts).isEmpty with
      | true =>
        have hout : translate_batch true (some r) texts = List.replicate texts.length "" := by
          simp [translate_batch, htexts, hne]
        refine ⟨?_, ?_, ?_⟩
        · rw [hout, List.length_replicate]
        · intro i t hit _
          obtain ⟨hi, _⟩ := List.getElem?_eq_some.mp hit
          rw [hout]
          simp [List.getElem?_replicate, hi]
        · intro k idx t hk
          rw [List.isEmpty_iff.mp hne] at hk
          simp at hk
      | false =>
        have hout : translate_batch true (some r) texts =
            scatter_back texts.length
              ((nonEmptyEnum texts).zip
                (parse_batch_result r (nonEmptyEnum texts).length)) := by
          simp [translate_batch, htexts, hne, pyTruthyResult, hr]
        have hts : (parse_batch_result r (nonEmptyEnum texts).length).length =
            (nonEmptyEnum texts).length := parse_batch_result_length _ _
        refine ⟨?_, ?_, ?_⟩
        · rw [hout]
          unfold scatter_back
          rw [foldl_set_length, List.length_replicate]
        · intro i t hit hstrip
          obtain ⟨hi, _⟩ := List.getElem?_eq_some.mp hit
          have hnot : ∀ p ∈ (nonEmptyEnum texts).zip
              (parse_batch_result r (nonEmptyEnum texts).length), p.1.1 ≠ i := by
            intro p hp heq
            have hp1 := (List.of_mem_zip hp).1
            have h3 := nonEmptyEnum_mem texts p.1 hp1
            rw [heq, hit, Option.some_inj] at h3
            have h4 := h3.2.2
            rw [← h3.1, hstrip] at h4
            simp [pyTruthy] at h4
          rw [hout]
          unfold scatter_back
          rw [foldl_set_getElem?_not_mem _ _ _ hnot]
          simp [List.getElem?_replicate, hi]
        · intro k idx t hk
          obtain ⟨hklt, hkv⟩ := List.getElem?_eq_some.mp hk
          have hk2 : k < (parse_batch_result r (nonEmptyEnum texts).length).length := by
            omega
          have hzlt : k < ((nonEmptyEnum texts).zip
              (parse_batch_result r (nonEmptyEnum texts).length)).length := by
            rw [List.length_zip, hts, Nat.min_self]
            exact hklt
          have hzk : ((nonEmptyEnum texts).zip
              (parse_batch_result r (nonEmptyEnum texts).length))[k]? =
              some ((idx, t), (parse_batch_result r (nonEmptyEnum texts).length).get ⟨k, hk2⟩) := by
            rw [List.getElem?_eq_getElem hzlt]
            congr 1
            rw [List.getElem_zip, hkv]
            rfl
          have hmapfst : (((nonEmptyEnum texts).zip
              (parse_batch_result r (nonEmptyEnum texts).length)).map fun p => p.1.1) =
              (nonEmptyEnum texts).map Prod.fst := by
            rw [show (fun p : (Nat × String) × String => p.1.1) = Prod.fst ∘ Prod.fst from rfl,
              ← List.map_map, List.map_fst_zip]
            omega
          have hbound : ∀ p ∈ (nonEmptyEnum texts).zip
              (parse_batch_result r (nonEmptyEnum texts).length),
              p.1.1 < (List.replicate texts.length "").length := by
            intro p hp
            have hp1 := (List.of_mem_zip hp).1
            have h3 := (nonEmptyEnum_mem texts p.1 hp1).1
            obtain ⟨hlt, _⟩ := List.getElem?_eq_some.mp h3
            rw [List.length_replicate]
            exact hlt
          have := foldl_set_getElem?_aligned _ (List.replicate texts.length "") k
            ((idx, t), (parse_batch_result r (nonEmptyEnum texts).length).get ⟨k, hk2⟩)
            hzk (hmapfst ▸ nonEmptyEnum_fst_nodup texts) hbound
          rw [hout]
          unfold scatter_back
          rw [this, List.getElem?_eq_getElem hk2]
          rfl
  · intro texts callResult
    rfl
  · intro texts callResult hc hne
    have htexts : texts.isEmpty = false := by
      cases texts with
      | nil => exact absurd rfl hne
      | cons x xs => rfl
    have hne2 : (nonEmptyEnum texts).isEmpty = false := List.isEmpty_eq_false.mpr hne
    simp [translate_batch, htexts, hne2, hc]

/-- Claim C2, witness for the amended theorem: a concrete batch with an
empty slot, checked against all three amended branches. -/
theorem C2_amended_witness :
    (translate_batch true (some "1. 甲\n2. 乙") ["x", "", "y"]).length = 3 ∧
    (translate_batch true (some "1. 甲\n2. 乙") ["x", "", "y"])[1]? = some "" ∧
    (translate_batch true (some "1. 甲\n2. 乙") ["x", "", "y"])[2]? =
      (parse_batch_result "1. 甲\n2. 乙" (nonEmptyEnum ["x", "", "y"]).length)[1]? ∧
    translate_batch true none ["x", "", "y"] =
      (nonEmptyEnum ["x", "", "y"]).map (fun p => "翻译失败: " ++ p.2) :=
  ⟨(C2_amended.1 ["x", "", "y"] "1. 甲\n2. 乙" (by decide)).1,
   (C2_amended.1 ["x", "", "y"] "1. 甲\n2. 乙" (by decide)).2.1 1 "" (by decide) (by decide),
   (C2_amended.1 ["x", "", "y"] "1. 甲\n2. 乙" (by decide)).2.2 1 2 "y" (by decide),
   C2_amended.2.2 ["x", "", "y"] none (by decide) (by decide)⟩
